import Mathlib

/-!
Verification of `scripts/webmemo-schema.py` (webmemo-code/webmemo-schema).

The Python script is shallowly embedded below.  HTTP responses, the JSON
library and the ambient clock are passed in as explicit parameters (they are
external to the repository); every function of the script itself is translated
from the source.
-/

/-- An HTTP response for a paginated collection endpoint, as consumed by
`fetch_all_pages`: `requests.get(...)` yields a `status_code`, and
`response.json()` yields the list of items of the page. -/
structure HttpPage (α : Type) where
  status_code : Nat
  items : List α

/-- Embedding of `fetch_all_pages` (lines 72-107).  The `while True` loop is
given an explicit fuel argument; under the hypotheses of the theorems below
the loop runs at most `N` iterations, so any fuel `≥ N` computes the loop's
exact result.  `server p` is the response to the request for page `p`
(the Python code starts at `params['page'] = 1` and increments by one).
The loop breaks on a non-200 status, then on an empty page
(`if not items: break`); otherwise it extends the accumulator and
continues. -/
def fetch_all_pages {α : Type} (server : Nat → HttpPage α) : Nat → Nat → List α
  | 0, _ => []
  | Nat.succ fuel, page =>
    let r := server page
    if r.status_code ≠ 200 then []
    else if r.items.isEmpty then []
    else r.items ++ fetch_all_pages server fuel (page + 1)

/-- Fixture for the pagination witness: pages 1 and 2 are non-empty,
page 3 is empty. -/
def pagedServer : Nat → HttpPage Nat := fun p =>
  if p = 1 then ⟨200, [10, 11]⟩
  else if p = 2 then ⟨200, [12]⟩
  else ⟨200, []⟩

/-- Outcome of submitting one batch inside `upload_schemas` (lines 285-315):
`requests.post` either returns a 200 response whose JSON carries `success`
and `errors` lists, returns a non-200 status, or raises (caught by the
`except Exception` clause). -/
inductive BatchOutcome where
  | ok (success errors : List String)
  | httpFail (status : Nat)
  | exc (msg : String)

/-- A batch outcome that does not reach the `status_code == 200` branch of
`upload_schemas`. -/
def nonSuccess : BatchOutcome → Bool
  | BatchOutcome.ok _ _ => false
  | BatchOutcome.httpFail _ => true
  | BatchOutcome.exc _ => true

/-- The successive slices `schemas[i:i+batch_size]` taken by the loop
`for i in range(0, len(schemas), batch_size)` in `upload_schemas`
(line 285).  For `batch_size ≥ 1`, `(a :: rest)[i:i+B]` at `i = 0` is
`a :: rest.take (B - 1)` and the loop continues on `rest.drop (B - 1)`.
(Python `range` with step 0 raises `ValueError`; the claims assume a
positive batch size.) -/
def batches {α : Type} (B : Nat) : List α → List (List α)
  | [] => []
  | a :: rest => (a :: List.take (B - 1) rest) :: batches B (List.drop (B - 1) rest)
termination_by l => l.length
decreasing_by simp [List.length_drop]; omega

/-- What one batch adds to `(total_success, total_errors)` in
`upload_schemas`: a 200 response adds the lengths of the reported `success`
and `errors` lists; a non-200 status or an exception adds the whole batch
length to the error count (lines 297-312). -/
def batchContrib {α : Type} (o : BatchOutcome) (batch : List α) : Nat × Nat :=
  match o with
  | BatchOutcome.ok succ errs => (succ.length, errs.length)
  | BatchOutcome.httpFail _ => (0, batch.length)
  | BatchOutcome.exc _ => (0, batch.length)

/-- The accumulation loop of `upload_schemas`: one iteration per batch,
`j` being the 0-based batch number (`i // batch_size` in the source) used
to look up that batch's response, `acc` the running
`(total_success, total_errors)`. -/
def uploadLoop {α : Type} (respond : Nat → BatchOutcome) :
    List (List α) → Nat → Nat × Nat → Nat × Nat
  | [], _, acc => acc
  | b :: rest, j, acc =>
    let c := batchContrib (respond j) b
    uploadLoop respond rest (j + 1) (acc.1 + c.1, acc.2 + c.2)

/-- Embedding of `upload_schemas` (lines 275-318): split the schema list
into `batch_size`-sized batches, POST each one (the response to batch `j`
is `respond j`), and return the final `(total_success, total_errors)`. -/
def upload_schemas {α : Type} (schemas : List α) (batch_size : Nat)
    (respond : Nat → BatchOutcome) : Nat × Nat :=
  uploadLoop respond (batches batch_size schemas) 0 (0, 0)

/-- Fixture for the upload witness: batch 1 (the second batch) fails with
status 500, the others succeed with one reported success each. -/
def wRespond : Nat → BatchOutcome := fun j =>
  if j = 1 then BatchOutcome.httpFail 500 else BatchOutcome.ok ["s1"] []

/-- A JSON value of the shape the script builds: strings, integers, arrays
and objects; an object is its list of key/value pairs in insertion order,
mirroring a Python dict. -/
inductive SVal where
  | s : String → SVal
  | n : Int → SVal
  | arr : List SVal → SVal
  | obj : List (String × SVal) → SVal

/-- The fields of a WordPress user record that `generate_person_schema` and
`generate_schemas` read.  `description` and `user_email` are accessed via
`.get` / `in` checks in the source, so they are optional (`none` = key
absent); `id`, `slug` and `name` are indexed directly. -/
structure UserData where
  id : Int
  slug : String
  name : String
  description : Option String
  user_email : Option String

/-- An embedded featured-media record: `source_url`, `width` and `height`
are all read through `in` / `.get` checks in `generate_article_schema`. -/
structure MediaData where
  source_url : Option String
  width : Option Int
  height : Option Int

/-- An embedded term (category or tag): only `name` is read. -/
structure TermData where
  name : String

/-- The `_embedded` payload of a post: `author[0]['slug']` is indexed
directly (hence required); `wp:featuredmedia` and `wp:term` are guarded by
`in` checks (`none` = key absent). -/
structure EmbeddedData where
  author_slug : String
  featuredmedia : Option (List MediaData)
  term : Option (List (List TermData))

/-- The fields of a WordPress post record that `generate_article_schema`
and `generate_schemas` read.  `featured_media` is guarded by an `in` check;
the rest are indexed directly. -/
structure PostData where
  id : Int
  title_rendered : String
  date : String
  modified : String
  link : String
  featured_media : Option Int
  embedded : EmbeddedData

/-- Embedding of `generate_person_schema` (lines 136-160): the returned
dict as its ordered key/value list.  `description` is
`user_data.get('description', '')`; `email` is added only when
`user_email` is present; `social_profiles` is the empty list built at
line 156, so the `sameAs` branch never fires. -/
def generate_person_schema (u : UserData) : List (String × SVal) :=
  let user_url := "https://api.webmemo.ch/author/" ++ u.slug
  let schema : List (String × SVal) :=
    [("@context", SVal.s "https://schema.org"),
     ("@type", SVal.s "Person"),
     ("@id", SVal.s user_url),
     ("name", SVal.s u.name),
     ("url", SVal.s user_url),
     ("description", SVal.s (u.description.getD ""))]
  let schema :=
    match u.user_email with
    | some e => schema ++ [("email", SVal.s e)]
    | none => schema
  let social_profiles : List String := []
  match social_profiles with
  | [] => schema
  | _ :: _ => schema ++ [("sameAs", SVal.arr (social_profiles.map SVal.s))]

/-- The base dict built at lines 164-182 of `generate_article_schema`,
before the conditional `image` and `keywords` additions. -/
def articleBase (p : PostData) : List (String × SVal) :=
  [("@context", SVal.s "https://schema.org"),
   ("@type", SVal.s "Article"),
   ("headline", SVal.s p.title_rendered),
   ("datePublished", SVal.s p.date),
   ("dateModified", SVal.s p.modified),
   ("url", SVal.s p.link),
   ("author", SVal.obj
     [("@type", SVal.s "Person"),
      ("@id", SVal.s ("https://webmemo.ch/author/" ++ p.embedded.author_slug))]),
   ("publisher", SVal.obj [("@id", SVal.s "https://webmemo.ch/#consulting")]),
   ("mainEntityOfPage", SVal.obj
     [("@type", SVal.s "WebPage"), ("@id", SVal.s p.link)])]

/-- The conditional `image` entry of `generate_article_schema`
(lines 184-194): added only when `featured_media` is present and positive,
the `wp:featuredmedia` embed is present and non-empty, and its first record
carries a `source_url`; `width`/`height` fall back to 1200/630 via
`media.get`. -/
def articleImage (p : PostData) : List (String × SVal) :=
  match p.featured_media with
  | some fm =>
    if 0 < fm then
      match p.embedded.featuredmedia with
      | some (media :: _) =>
        match media.source_url with
        | some src =>
          [("image", SVal.obj
            [("@type", SVal.s "ImageObject"),
             ("url", SVal.s src),
             ("width", SVal.n (media.width.getD 1200)),
             ("height", SVal.n (media.height.getD 630))])]
        | none => []
      | _ => []
    else []
  | none => []

/-- The conditional `keywords` entry of `generate_article_schema`
(lines 196-210): category names from `wp:term[0]`, then tag names from
`wp:term[1]`, comma-joined; added only when the combined list is
non-empty. -/
def articleKeywords (p : PostData) : List (String × SVal) :=
  match p.embedded.term with
  | some terms =>
    let keywords :=
      (match terms with
       | t0 :: _ => t0.map TermData.name
       | [] => []) ++
      (match terms with
       | _ :: t1 :: _ => t1.map TermData.name
       | _ => [])
    match keywords with
    | [] => []
    | _ :: _ => [("keywords", SVal.s (String.intercalate ", " keywords))]
  | none => []

/-- Embedding of `generate_article_schema` (lines 162-212): the base dict,
then the conditional `image` assignment, then the conditional `keywords`
assignment (Python dict assignment appends the new key at the end, so the
dict's ordered entries are exactly this concatenation). -/
def generate_article_schema (p : PostData) : List (String × SVal) :=
  articleBase p ++ articleImage p ++ articleKeywords p

/-- One character of `json.dumps` string escaping (backslash and double
quote; the only escapes the script's ASCII field values can need). -/
def jsonEscapeChar (c : Char) : String :=
  if c = '\\' then "\\\\" else if c = '"' then "\\\"" else String.singleton c

/-- `json.dumps` on a string value. -/
def jsonQuote (s : String) : String :=
  "\"" ++ String.join (s.toList.map jsonEscapeChar) ++ "\""

mutual
/-- `json.dumps` with its default separators `', '` and `': '` on the JSON
subset of `SVal`. -/
def dumps : SVal → String
  | SVal.s str => jsonQuote str
  | SVal.n i => toString i
  | SVal.arr xs => "[" ++ dumpsArr xs ++ "]"
  | SVal.obj kvs => "\x7b" ++ dumpsFields kvs ++ "\x7d"

/-- `json.dumps` of the elements of an array, comma-separated. -/
def dumpsArr : List SVal → String
  | [] => ""
  | [v] => dumps v
  | v :: w :: rest => dumps v ++ ", " ++ dumpsArr (w :: rest)

/-- `json.dumps` of the fields of an object, comma-separated. -/
def dumpsFields : List (String × SVal) → String
  | [] => ""
  | [(k, v)] => jsonQuote k ++ ": " ++ dumps v
  | (k, v) :: kv :: rest => jsonQuote k ++ ": " ++ dumps v ++ ", " ++ dumpsFields (kv :: rest)
end

/-- A row of the schema table built by `generate_schemas`
(lines 252-258 and 263-269). -/
structure SchemaRecord where
  object_id : Int
  object_type : String
  schema_type : String
  schema_data : String
  last_updated : String
deriving DecidableEq

/-- The keys of the fetched-data dict that `generate_schemas` reads
(`data['users']` and `data['posts']`; the other keys are never touched
by it). -/
structure SiteData where
  users : List UserData
  posts : List PostData

/-- The record appended for one user (lines 252-258).  `now` is
`datetime.now().strftime('%Y-%m-%d %H:%M:%S')`, passed in explicitly. -/
def userSchemaRecord (now : String) (user : UserData) : SchemaRecord :=
  { object_id := user.id
    object_type := "user"
    schema_type := "Person"
    schema_data := dumps (SVal.obj (generate_person_schema user))
    last_updated := now }

/-- The record appended for one post (lines 263-269). -/
def postSchemaRecord (now : String) (post : PostData) : SchemaRecord :=
  { object_id := post.id
    object_type := "post"
    schema_type := "Article"
    schema_data := dumps (SVal.obj (generate_article_schema post))
    last_updated := now }

/-- Embedding of `generate_schemas` (lines 245-273): start from the empty
list, append one Person record per user, then one Article record per
post. -/
def generate_schemas (now : String) (data : SiteData) : List SchemaRecord :=
  let schemas : List SchemaRecord := []
  let schemas := data.users.foldl (fun acc user => acc ++ [userSchemaRecord now user]) schemas
  data.posts.foldl (fun acc post => acc ++ [postSchemaRecord now post]) schemas

/-- Default used to state positional facts about lists via `List.getD`. -/
def defaultUser : UserData :=
  { id := 0, slug := "", name := "", description := none, user_email := none }

/-- Default used to state positional facts about lists via `List.getD`. -/
def defaultSchemaRecord : SchemaRecord :=
  { object_id := 0, object_type := "", schema_type := "", schema_data := "",
    last_updated := "" }

/-- Fixture for the injectivity witness: two users with distinct ids. -/
def c6data : SiteData :=
  { users :=
      [{ id := 1, slug := "a", name := "A", description := none, user_email := none },
       { id := 2, slug := "b", name := "B", description := none, user_email := none }]
    posts := [] }

/-- Fixture: a user whose optional `description` and `user_email` keys are
both absent. -/
def c5user : UserData :=
  { id := 7, slug := "ws", name := "Walter", description := none, user_email := none }

/-- Fixture: a post with no `featured_media` and no `wp:term` embed. -/
def c5post : PostData :=
  { id := 3, title_rendered := "T", date := "2025-01-01", modified := "2025-01-02",
    link := "https://webmemo.ch/t",
    featured_media := none
    embedded := { author_slug := "ws", featuredmedia := none, term := none } }

/-- Fixture: a post whose featured media lacks explicit dimensions. -/
def c3post : PostData :=
  { id := 4, title_rendered := "T", date := "2025-01-01", modified := "2025-01-02",
    link := "https://webmemo.ch/t",
    featured_media := some 9
    embedded :=
      { author_slug := "ws"
        featuredmedia := some
          [{ source_url := some "https://webmemo.ch/img.jpg", width := none, height := none }]
        term := none } }

/-- Fixture: a post whose `featured_media` key is absent. -/
def c3postNoMedia : PostData :=
  { id := 5, title_rendered := "T", date := "2025-01-01", modified := "2025-01-02",
    link := "https://webmemo.ch/t",
    featured_media := none
    embedded := { author_slug := "ws", featuredmedia := none, term := none } }

/-- The response to `requests.get(url)` inside `validate_schemas`:
a status code and the page body. -/
structure WebResp where
  status_code : Nat
  text : String

/-- A validation result record as appended at lines 353-359 / 363-370:
`error` is present only on the `JSONDecodeError` path. -/
structure ValidationResult where
  url : String
  schema_index : Nat
  schema_type : String
  valid_json : Bool
  error : Option String
  schema_data : String

/-- One iteration of the URL loop of `validate_schemas` (lines 324-376).
`fetchPage url` models `requests.get(url)`; `Except.error` means the
request itself raised (caught by the `except Exception` at line 372).
After a 200 response, the next source line evaluates
`re.findall(pattern, response.text, re.DOTALL)` — but the module never
imports `re` (the import list at lines 4-14 has no `import re`), so that
expression raises `NameError: name 're' is not defined`; the enclosing
`except Exception` catches it, logs, and moves to the next URL.  Every
path through the loop body therefore appends no result record. -/
def validate_url (fetchPage : String → Except String WebResp) (url : String) :
    List ValidationResult :=
  match fetchPage url with
  | Except.error _ => []
  | Except.ok resp =>
    if resp.status_code ≠ 200 then []
    else []

/-- Embedding of `validate_schemas` (lines 320-378): the `results` list
accumulated over all URLs. -/
def validate_schemas (fetchPage : String → Except String WebResp)
    (urls : List String) : List ValidationResult :=
  (urls.map (validate_url fetchPage)).flatten

/-- Fixture: a server that answers every URL with a 200 page containing two
well-formed JSON-LD script blocks and one malformed one. -/
def c4fetch : String → Except String WebResp := fun _ =>
  Except.ok
    { status_code := 200
      text := String.intercalate ""
        ["<script type=\"application/ld+json\">\x7b\"@type\": \"Article\"\x7d</script>",
         "<script type=\"application/ld+json\">\x7b\"@type\": \"Person\"\x7d</script>",
         "<script type=\"application/ld+json\">\x7bnot json</script>"] }

/-- Embedding of `authenticate` (lines 50-70).  `in_colab` is the module's
`IN_COLAB` flag; `credentials_path` is
`os.getenv('GOOGLE_APPLICATION_CREDENTIALS')` (`none` when unset).
`if not credentials_path` is true for `None` and for the empty string and
raises `ValueError`; otherwise the service-account authorization (external
library calls) proceeds.  The Colab branch delegates entirely to external
auth libraries. -/
def authenticate (in_colab : Bool) (credentials_path : Option String) :
    Except String Unit :=
  if in_colab then Except.ok ()
  else
    match credentials_path with
    | none =>
      Except.error "GOOGLE_APPLICATION_CREDENTIALS environment variable not set"
    | some p =>
      if p = "" then
        Except.error "GOOGLE_APPLICATION_CREDENTIALS environment variable not set"
      else Except.ok ()

/-- The five boolean command-line flags of `main` (lines 382-386). -/
structure Args where
  fetch : Bool
  generate : Bool
  upload : Bool
  validate : Bool
  all : Bool

/-- The observable top-level actions of `main`: printing the usage text,
calling `authenticate`, and running each of the four network stages. -/
inductive MainAction where
  | printHelp
  | authCall
  | stageFetch
  | stageGenerate
  | stageUpload
  | stageValidate
deriving DecidableEq

/-- The stages `main` runs once authenticated, in the fixed source order
(lines 399-436): fetch, generate, upload, validate, each gated on its own
flag or `--all`. -/
def stagesFor (args : Args) : List MainAction :=
  (if args.all || args.fetch then [MainAction.stageFetch] else []) ++
  (if args.all || args.generate then [MainAction.stageGenerate] else []) ++
  (if args.all || args.upload then [MainAction.stageUpload] else []) ++
  (if args.all || args.validate then [MainAction.stageValidate] else [])

/-- Embedding of `main` (lines 380-436) as the list of top-level actions it
performs plus the message of an uncaught exception, if any.  With no flag
set (`not any(vars(args).values())`) it prints the help text and returns;
otherwise it calls `authenticate` — a `ValueError` raised there propagates,
ending the run with no stage executed — and then runs the selected stages
in fixed order. -/
def main_run (args : Args) (in_colab : Bool) (credentials_path : Option String) :
    List MainAction × Option String :=
  if !(args.fetch || args.generate || args.upload || args.validate || args.all) then
    ([MainAction.printHelp], none)
  else
    match authenticate in_colab credentials_path with
    | Except.error e => ([MainAction.authCall], some e)
    | Except.ok _ => (MainAction.authCall :: stagesFor args, none)

/-- Fixture: an invocation with only `--fetch` set. -/
def c8args : Args :=
  { fetch := true, generate := false, upload := false, validate := false, all := false }

/-- Fixture: an invocation with none of the five flags set. -/
def c9args : Args :=
  { fetch := false, generate := false, upload := false, validate := false, all := false }

/-- Helper for the pagination proof: the loop started at page `p ≤ N`
returns the concatenation of pages `p .. N-1` when every page before `N`
is successful and non-empty and page `N` stops the loop. -/
theorem fetch_all_pages_from {α : Type} (server : Nat → HttpPage α) (N : Nat)
    (hok : ∀ i, 1 ≤ i → i < N → (server i).status_code = 200 ∧ (server i).items ≠ [])
    (hstop : (server N).status_code ≠ 200 ∨ (server N).items = []) :
    ∀ fuel p, 1 ≤ p → p ≤ N → N + 1 ≤ p + fuel →
      fetch_all_pages server fuel p =
        ((List.range' p (N - p)).map fun i => (server i).items).flatten := by
  intro fuel
  induction fuel with
  | zero => intro p _ hpN hf; omega
  | succ fuel ih =>
    intro p hp hpN hf
    rcases Nat.eq_or_lt_of_le hpN with heq | hlt
    · subst heq
      rcases hstop with hs | hs
      · simp [fetch_all_pages, hs]
      · simp [fetch_all_pages, hs]
    · obtain ⟨hstatus, hne⟩ := hok p hp hlt
      have hie : (server p).items.isEmpty = false := by
        simp [hne]
      have hrec := ih (p + 1) (by omega) (by omega) (by omega)
      have hrange : N - p = (N - (p + 1)) + 1 := by omega
      simp only [fetch_all_pages, hstatus, hie]
      rw [hrange, List.range'_succ]
      simp [hrec]

/-- C1: if page `N` is the first page that stops the loop — it yields zero
items, or returns a non-success status — while every earlier page returns
status 200 with a non-empty item list, then `fetch_all_pages` (started at
page 1, with enough fuel for the `N` iterations the loop actually performs)
returns exactly the items of pages `1 .. N-1`, concatenated in page order
and, within each page, in the order the page returned them; nothing is
retried or duplicated. -/
theorem fetch_all_pages_spec {α : Type} (server : Nat → HttpPage α) (N fuel : Nat)
    (hN : 1 ≤ N) (hfuel : N ≤ fuel)
    (hok : ∀ i, 1 ≤ i → i < N → (server i).status_code = 200 ∧ (server i).items ≠ [])
    (hstop : (server N).status_code ≠ 200 ∨ (server N).items = []) :
    fetch_all_pages server fuel 1 =
      ((List.range' 1 (N - 1)).map fun i => (server i).items).flatten :=
  fetch_all_pages_from server N hok hstop fuel 1 (Nat.le_refl 1) hN (by omega)

/-- Witness for C1 on a concrete three-page server. -/
theorem fetch_all_pages_spec_witness :
    fetch_all_pages pagedServer 5 1 = [10, 11, 12] := by
  have h := fetch_all_pages_spec pagedServer 3 5 (by decide) (by decide)
    (by
      intro i h1 h2
      interval_cases i
      · exact ⟨rfl, by decide⟩
      · exact ⟨rfl, by decide⟩)
    (Or.inr rfl)
  simpa using h

/-- The number of batches is the ceiling of `length / B`. -/
theorem batches_length {α : Type} (B : Nat) (hB : 0 < B) :
    ∀ (n : Nat) (l : List α), l.length ≤ n →
      (batches B l).length = (l.length + B - 1) / B := by
  intro n
  induction n with
  | zero =>
    intro l hl
    match l with
    | [] => simp [batches, Nat.div_eq_of_lt (by omega : B - 1 < B)]
    | a :: rest => simp at hl
  | succ n ih =>
    intro l hl
    match l with
    | [] => simp [batches, Nat.div_eq_of_lt (by omega : B - 1 < B)]
    | a :: rest =>
      simp only [batches, List.length_cons]
      have hlen : (List.drop (B - 1) rest).length ≤ n := by
        simp only [List.length_drop]
        simp only [List.length_cons] at hl
        omega
      rw [ih (List.drop (B - 1) rest) hlen, List.length_drop]
      rcases Nat.lt_or_ge rest.length (B - 1) with h | h
      · have hX : rest.length - (B - 1) = 0 := by omega
        have h2 : rest.length + 1 + B - 1 = rest.length + B := by omega
        rw [hX, h2, Nat.add_div_right _ hB,
          Nat.div_eq_of_lt (by omega : 0 + B - 1 < B),
          Nat.div_eq_of_lt (by omega : rest.length < B)]
      · have h1 : rest.length - (B - 1) + B - 1 = rest.length := by omega
        have h2 : rest.length + 1 + B - 1 = rest.length + B := by omega
        rw [h1, h2, Nat.add_div_right _ hB]

/-- The upload loop distributes over batches: each batch contributes its
own `batchContrib` to the totals, independently of the other batches. -/
theorem uploadLoop_eq {α : Type} (respond : Nat → BatchOutcome) :
    ∀ (bs : List (List α)) (j : Nat) (acc : Nat × Nat),
      uploadLoop respond bs j acc =
        (acc.1 + ((List.enumFrom j bs).map
            fun jb => (batchContrib (respond jb.1) jb.2).1).sum,
         acc.2 + ((List.enumFrom j bs).map
            fun jb => (batchContrib (respond jb.1) jb.2).2).sum) := by
  intro bs
  induction bs with
  | nil => intro j acc; simp [uploadLoop]
  | cons b rest ih =>
    intro j acc
    simp only [uploadLoop, ih, List.enumFrom, List.map_cons, List.sum_cons]
    refine Prod.ext ?_ ?_ <;> simp <;> omega

/-- C2: for a schema list of length `L` and batch size `B > 0`,
`upload_schemas` submits exactly `⌈L/B⌉` batches (`(L + B - 1) / B` in
natural-number arithmetic, which is `0` when `L = 0`); the final
`(total_success, total_errors)` is the componentwise sum of the per-batch
contributions — so each batch's response affects only its own summand —
and a batch whose response is non-success (non-200 status or exception)
contributes exactly `(0, its item count)`. -/
theorem upload_schemas_spec {α : Type} (schemas : List α) (B : Nat) (hB : 0 < B)
    (respond : Nat → BatchOutcome) :
    (batches B schemas).length = (schemas.length + B - 1) / B
    ∧ upload_schemas schemas B respond =
        (((List.enumFrom 0 (batches B schemas)).map
            fun jb => (batchContrib (respond jb.1) jb.2).1).sum,
         ((List.enumFrom 0 (batches B schemas)).map
            fun jb => (batchContrib (respond jb.1) jb.2).2).sum)
    ∧ ∀ (j : Nat) (b : List α), nonSuccess (respond j) = true →
        batchContrib (respond j) b = (0, b.length) := by
  refine ⟨batches_length B hB schemas.length schemas (Nat.le_refl _), ?_, ?_⟩
  · rw [upload_schemas, uploadLoop_eq]
    simp
  · intro j b h
    cases hr : respond j <;> simp [hr, nonSuccess] at h ⊢ <;> simp [batchContrib]

/-- Witness for C2: five schemas in batches of two give three batches;
with the second batch failing, the totals are 2 successes and 2 errors. -/
theorem upload_schemas_spec_witness :
    (batches 2 [1, 2, 3, 4, 5]).length = 3 ∧
      upload_schemas [1, 2, 3, 4, 5] 2 wRespond = (2, 2) := by
  have h := upload_schemas_spec [1, 2, 3, 4, 5] 2 (by decide) wRespond
  refine ⟨by rw [h.1]; decide, ?_⟩
  rw [h.2.1]
  simp [batches, wRespond, batchContrib, List.enumFrom]

/-- Every iteration of the URL loop appends no record: the request may
raise, the status may be non-200, and otherwise the unbound name `re`
raises `NameError` into the catch-all handler. -/
theorem validate_url_nil (fetchPage : String → Except String WebResp) (url : String) :
    validate_url fetchPage url = [] := by
  unfold validate_url
  cases fetchPage url with
  | error e => rfl
  | ok resp => simp

/-- C4 (refuted by the code): because the module never imports `re`, the
`re.findall` call in `validate_schemas` raises `NameError` for every
fetched page and the catch-all `except` swallows it, so `validate_schemas`
returns zero result records for every URL list and every page environment.
In particular (first conjunct) a URL served a 200 page holding two
well-formed JSON-LD blocks and one malformed block yields no records
instead of the three per-block records the claim requires. -/
theorem validate_schemas_returns_no_records :
    validate_schemas c4fetch ["https://webmemo.ch"] = []
    ∧ ∀ (fetchPage : String → Except String WebResp) (urls : List String),
        validate_schemas fetchPage urls = [] := by
  have hgen : ∀ (fetchPage : String → Except String WebResp) (urls : List String),
      validate_schemas fetchPage urls = [] := by
    intro fetchPage urls
    have h : validate_url fetchPage = fun _ => ([] : List ValidationResult) :=
      funext (validate_url_nil fetchPage)
    simp [validate_schemas, h]
  exact ⟨hgen c4fetch _, hgen⟩

/-- C8: in a non-Colab environment with `GOOGLE_APPLICATION_CREDENTIALS`
unset, any invocation of `main_run` with at least one flag raises
`ValueError` inside `authenticate`, ending the run immediately: the trace
holds only the authentication attempt, so none of the four stages performs
any network activity. -/
theorem main_missing_credentials_aborts (args : Args)
    (hflag : args.fetch = true ∨ args.generate = true ∨ args.upload = true ∨
      args.validate = true ∨ args.all = true) :
    main_run args false none =
      ([MainAction.authCall],
       some "GOOGLE_APPLICATION_CREDENTIALS environment variable not set")
    ∧ ∀ a ∈ (main_run args false none).1,
        a ≠ MainAction.stageFetch ∧ a ≠ MainAction.stageGenerate ∧
        a ≠ MainAction.stageUpload ∧ a ≠ MainAction.stageValidate := by
  have hcond :
      (args.fetch || args.generate || args.upload || args.validate || args.all) = true := by
    rcases hflag with h | h | h | h | h <;> simp [h]
  have hmain : main_run args false none =
      ([MainAction.authCall],
       some "GOOGLE_APPLICATION_CREDENTIALS environment variable not set") := by
    simp [main_run, hcond, authenticate]
  refine ⟨hmain, ?_⟩
  rw [hmain]
  intro a ha
  simp at ha
  subst ha
  exact ⟨by decide, by decide, by decide, by decide⟩

/-- Witness for C8: `--fetch` alone with no credentials. -/
theorem main_missing_credentials_aborts_witness :
    main_run c8args false none =
      ([MainAction.authCall],
       some "GOOGLE_APPLICATION_CREDENTIALS environment variable not set") :=
  (main_missing_credentials_aborts c8args (Or.inl rfl)).1

/-- C9: with none of the five flags set, `main_run` prints the usage text
and returns without error — no authentication call and none of the four
stages appear in the trace. -/
theorem main_no_flags_prints_usage (args : Args) (in_colab : Bool)
    (cred : Option String)
    (h : args.fetch = false ∧ args.generate = false ∧ args.upload = false ∧
      args.validate = false ∧ args.all = false) :
    main_run args in_colab cred = ([MainAction.printHelp], none) := by
  obtain ⟨h1, h2, h3, h4, h5⟩ := h
  simp [main_run, h1, h2, h3, h4, h5]

/-- Witness for C9: the all-false flag record. -/
theorem main_no_flags_prints_usage_witness :
    main_run c9args false none = ([MainAction.printHelp], none) :=
  main_no_flags_prints_usage c9args false none ⟨rfl, rfl, rfl, rfl, rfl⟩

/-- C10: the Person object never carries a `sameAs` key — the
social-profiles list it would come from is the constant empty list — and
always carries a `description` key, valued
`user_data.get('description', '')`, i.e. the empty string when the user
record has no description. -/
theorem generate_person_schema_sameAs_description (u : UserData) :
    "sameAs" ∉ (generate_person_schema u).map Prod.fst
    ∧ ("description", SVal.s (u.description.getD "")) ∈ generate_person_schema u := by
  cases h : u.user_email <;> simp [generate_person_schema, h]

/-- The `keywords` segment contributes either no key or exactly the
`keywords` key. -/
theorem articleKeywords_keys (p : PostData) :
    (articleKeywords p).map Prod.fst = [] ∨
      (articleKeywords p).map Prod.fst = ["keywords"] := by
  unfold articleKeywords
  cases p.embedded.term with
  | none => simp
  | some terms =>
    cases h : ((match terms with
        | t0 :: _ => t0.map TermData.name
        | [] => []) ++
      (match terms with
        | _ :: t1 :: _ => t1.map TermData.name
        | _ => [])) with
    | nil => simp [h]
    | cons a tl => simp [h]

/-- The `image` segment contributes either no key or exactly the `image`
key. -/
theorem articleImage_keys (p : PostData) :
    (articleImage p).map Prod.fst = [] ∨
      (articleImage p).map Prod.fst = ["image"] := by
  unfold articleImage
  cases p.featured_media with
  | none => simp
  | some fm =>
    by_cases hfm : 0 < fm
    · simp only [if_pos hfm]
      cases hm : p.embedded.featuredmedia with
      | none => simp
      | some ms =>
        cases ms with
        | nil => simp
        | cons media rest => cases hsrc : media.source_url <;> simp [hsrc]
    · simp [if_neg hfm]

/-- No `image` entry when the `featured_media` key is absent. -/
theorem articleImage_none_of_absent (p : PostData)
    (h : p.featured_media = none) : articleImage p = [] := by
  simp [articleImage, h]

/-- No `image` entry when `featured_media` is not positive. -/
theorem articleImage_none_of_nonpos (p : PostData) (v : Int)
    (h : p.featured_media = some v) (hv : ¬ 0 < v) : articleImage p = [] := by
  simp [articleImage, h, hv]

/-- The `image` entry with both dimension fallbacks when the first embedded
media record has a `source_url` but no `width`/`height`. -/
theorem articleImage_default_dims (p : PostData) (v : Int) (m : MediaData)
    (rest : List MediaData) (src : String)
    (hfm : p.featured_media = some v) (hv : 0 < v)
    (hmedia : p.embedded.featuredmedia = some (m :: rest))
    (hsrc : m.source_url = some src) (hw : m.width = none) (hh : m.height = none) :
    articleImage p =
      [("image", SVal.obj
        [("@type", SVal.s "ImageObject"), ("url", SVal.s src),
         ("width", SVal.n 1200), ("height", SVal.n 630)])] := by
  simp [articleImage, hfm, hv, hmedia, hsrc, hw, hh]

/-- C3: `generate_article_schema` omits the `image` key whenever the post's
`featured_media` field is absent or not greater than 0; and whenever the
image is attached from an embedded featured-media record that lacks
explicit `width`/`height`, the emitted image node carries fallback
width 1200 and height 630. -/
theorem generate_article_schema_image (p : PostData) :
    ((p.featured_media = none ∨ ∃ v, p.featured_media = some v ∧ ¬ 0 < v) →
      "image" ∉ (generate_article_schema p).map Prod.fst)
    ∧ (∀ (v : Int) (m : MediaData) (rest : List MediaData) (src : String),
        p.featured_media = some v → 0 < v →
        p.embedded.featuredmedia = some (m :: rest) →
        m.source_url = some src → m.width = none → m.height = none →
        ("image", SVal.obj
          [("@type", SVal.s "ImageObject"), ("url", SVal.s src),
           ("width", SVal.n 1200), ("height", SVal.n 630)]) ∈
          generate_article_schema p) := by
  constructor
  · intro h
    have himg : articleImage p = [] := by
      rcases h with h | ⟨v, hv, hnp⟩
      · exact articleImage_none_of_absent p h
      · exact articleImage_none_of_nonpos p v hv hnp
    rcases articleKeywords_keys p with hk | hk <;>
      simp [generate_article_schema, articleBase, himg, hk]
  · intro v m rest src hfm hv hmedia hsrc hw hh
    rw [generate_article_schema,
      articleImage_default_dims p v m rest src hfm hv hmedia hsrc hw hh]
    simp

/-- Witness for C3 at concrete posts: `c3postNoMedia` (no `featured_media`
key) gets no image entry; `c3post` (featured media without dimensions) gets
the 1200×630 fallback node. -/
theorem generate_article_schema_image_witness :
    "image" ∉ (generate_article_schema c3postNoMedia).map Prod.fst
    ∧ ("image", SVal.obj
        [("@type", SVal.s "ImageObject"),
         ("url", SVal.s "https://webmemo.ch/img.jpg"),
         ("width", SVal.n 1200), ("height", SVal.n 630)]) ∈
        generate_article_schema c3post := by
  constructor
  · exact (generate_article_schema_image c3postNoMedia).1 (Or.inl rfl)
  · exact (generate_article_schema_image c3post).2 9
      { source_url := some "https://webmemo.ch/img.jpg", width := none, height := none }
      [] "https://webmemo.ch/img.jpg" rfl (by decide) rfl rfl rfl rfl

/-- C5 counterexample: `c5user` lacks the optional `description` field, yet
the generated Person object still contains a `description` key (valued
`""`); the field is defaulted, not omitted as the claim states. -/
theorem generate_person_schema_keeps_missing_description :
    c5user.description = none
    ∧ "description" ∈ (generate_person_schema c5user).map Prod.fst :=
  ⟨rfl, by simp [generate_person_schema, c5user]⟩

/-- C5 (amended): schema generation never raises on a record with a missing
optional field (both generators are total functions of their input
records), and the corresponding output field is omitted except where the
source substitutes a fixed default: a missing `user_email` omits `email`, a
missing `wp:term` embed omits `keywords`, an absent `featured_media` omits
`image`, while a missing `description` is emitted as the empty string
(and missing media `width`/`height` are emitted as 1200/630). -/
theorem schema_generation_optional_fields (u : UserData) (p : PostData) :
    (u.user_email = none → "email" ∉ (generate_person_schema u).map Prod.fst)
    ∧ (u.description = none → ("description", SVal.s "") ∈ generate_person_schema u)
    ∧ (p.embedded.term = none → "keywords" ∉ (generate_article_schema p).map Prod.fst)
    ∧ (p.featured_media = none → "image" ∉ (generate_article_schema p).map Prod.fst) := by
  refine ⟨?_, ?_, ?_, ?_⟩
  · intro h
    simp [generate_person_schema, h]
  · intro h
    cases he : u.user_email <;> simp [generate_person_schema, h, he]
  · intro h
    have hk : articleKeywords p = [] := by simp [articleKeywords, h]
    rcases articleImage_keys p with hi | hi <;>
      simp [generate_article_schema, articleBase, hk, hi]
  · intro h
    have himg : articleImage p = [] := articleImage_none_of_absent p h
    rcases articleKeywords_keys p with hk | hk <;>
      simp [generate_article_schema, articleBase, himg, hk]

/-- Witness for C5 (amended) at `c5user` and `c5post`, whose optional
fields are all missing. -/
theorem schema_generation_optional_fields_witness :
    "email" ∉ (generate_person_schema c5user).map Prod.fst
    ∧ ("description", SVal.s "") ∈ generate_person_schema c5user
    ∧ "keywords" ∉ (generate_article_schema c5post).map Prod.fst
    ∧ "image" ∉ (generate_article_schema c5post).map Prod.fst := by
  have h := schema_generation_optional_fields c5user c5post
  exact ⟨h.1 rfl, h.2.1 rfl, h.2.2.1 rfl, h.2.2.2 rfl⟩

/-- A left fold that appends one element per input is the initial value
followed by the mapped list. -/
theorem foldl_append_map {α β : Type} (f : α → β) :
    ∀ (l : List α) (init : List β),
      l.foldl (fun acc x => acc ++ [f x]) init = init ++ l.map f := by
  intro l
  induction l with
  | nil => intro init; simp
  | cons a t ih => intro init; simp [ih]

/-- `generate_schemas` is the user records followed by the post records. -/
theorem generate_schemas_eq (now : String) (data : SiteData) :
    generate_schemas now data =
      data.users.map (userSchemaRecord now) ++ data.posts.map (postSchemaRecord now) := by
  simp [generate_schemas, foldl_append_map]

/-- C7: `generate_schemas` produces exactly one record per entity — the
user-derived Person records first, then the post-derived Article records,
each group in input order — so its length is the number of users plus the
number of posts. -/
theorem generate_schemas_one_per_entity (now : String) (data : SiteData) :
    generate_schemas now data =
      data.users.map (userSchemaRecord now) ++ data.posts.map (postSchemaRecord now)
    ∧ (generate_schemas now data).length = data.users.length + data.posts.length := by
  refine ⟨generate_schemas_eq now data, ?_⟩
  rw [generate_schemas_eq]
  simp

/-- Position `k < #users` of the output holds the Person record of user
`k`. -/
theorem generate_schemas_getD_user (now : String) (data : SiteData) (k : Nat)
    (hk : k < data.users.length) :
    (generate_schemas now data).getD k defaultSchemaRecord =
      userSchemaRecord now (data.users.getD k defaultUser) := by
  rw [generate_schemas_eq]
  rw [List.getD_eq_getElem?_getD, List.getD_eq_getElem?_getD]
  rw [List.getElem?_append_left (by simpa using hk)]
  rw [List.getElem?_map]
  rw [List.getElem?_eq_getElem hk]
  simp

/-- C6: Person-record generation is injective on user id — the records that
`generate_schemas` produces at the positions of two users with distinct
`id` fields carry distinct `object_id` values. -/
theorem generate_schemas_object_id_injective (now : String) (data : SiteData)
    (i j : Nat) (hi : i < data.users.length) (hj : j < data.users.length)
    (hne : (data.users.getD i defaultUser).id ≠ (data.users.getD j defaultUser).id) :
    ((generate_schemas now data).getD i defaultSchemaRecord).object_id ≠
      ((generate_schemas now data).getD j defaultSchemaRecord).object_id := by
  rw [generate_schemas_getD_user now data i hi, generate_schemas_getD_user now data j hj]
  simpa [userSchemaRecord] using hne

/-- Witness for C6: the two users of `c6data` have ids 1 and 2, and the
records generated for them keep those as distinct `object_id`s. -/
theorem generate_schemas_object_id_injective_witness :
    ((generate_schemas "2026-10-12 00:00:00" c6data).getD 0 defaultSchemaRecord).object_id ≠
      ((generate_schemas "2026-10-12 00:00:00" c6data).getD 1 defaultSchemaRecord).object_id :=
  generate_schemas_object_id_injective "2026-10-12 00:00:00" c6data 0 1
    (by decide) (by decide) (by decide)
